import Mathlib

/-!
# LunarGravity uniform buffer: a shallow embedding of gravityuniformbuffer.cpp

The C++ class GravityUniformBuffer owns a Vulkan buffer handle and a
GravityDeviceMemory descriptor.  Every method talks to two collaborators
whose code is not part of the file: the Vulkan driver (vkCreateBuffer,
vkDestroyBuffer, ...) and the GravityDeviceMemoryManager (AllocateMemory,
FreeMemory, MapMemory, UnmapMemory).  Their behaviour is a parameter of the
model (the record Collaborators), and every call made to them is appended to
a call log, so that statements such as "free is called exactly once" can be
read off the log.

Machine integers are natural numbers; the only arithmetic in the file that
can overflow, the uint32_t product index * m_data_stride_bytes, is reduced
modulo 2^32 before it is widened to 64 bits.  Handles and pointers are
natural numbers with 0 for VK_NULL_HANDLE and nullptr.
-/

namespace LunarGravity

/-! ## Constants of the Vulkan headers -/

/-- VK_NULL_HANDLE, the null value of every Vulkan handle type. -/
def VK_NULL_HANDLE : Nat := 0

/-- The null pointer, nullptr. -/
def nullptr : Nat := 0

/-- VK_SUCCESS, the VkResult of a call that succeeded. -/
def VK_SUCCESS : Int := 0

/-- VK_MEMORY_PROPERTY_DEVICE_LOCAL_BIT of VkMemoryPropertyFlagBits. -/
def VK_MEMORY_PROPERTY_DEVICE_LOCAL_BIT : Nat := 0x00000001

/-- VK_MEMORY_PROPERTY_HOST_VISIBLE_BIT of VkMemoryPropertyFlagBits. -/
def VK_MEMORY_PROPERTY_HOST_VISIBLE_BIT : Nat := 0x00000002

/-- VK_STRUCTURE_TYPE_BUFFER_CREATE_INFO of VkStructureType. -/
def VK_STRUCTURE_TYPE_BUFFER_CREATE_INFO : Nat := 12

/-- VK_BUFFER_USAGE_UNIFORM_BUFFER_BIT of VkBufferUsageFlagBits. -/
def VK_BUFFER_USAGE_UNIFORM_BUFFER_BIT : Nat := 0x00000010

/-- VK_SHARING_MODE_EXCLUSIVE of VkSharingMode. -/
def VK_SHARING_MODE_EXCLUSIVE : Nat := 0

/-- The number of values of a uint32_t. -/
def UINT32_SIZE : Nat := 2 ^ 32

/-! ## Data model -/

/-- VkMemoryRequirements as filled by vkGetBufferMemoryRequirements. -/
structure VkMemoryRequirements where
  size : Nat
  alignment : Nat
  memoryTypeBits : Nat
  deriving DecidableEq, Repr

/-- The memory-region descriptor: the two members of GravityDeviceMemory that
the file reads or writes.  It is handed to the memory manager by reference. -/
structure GravityDeviceMemory where
  vk_mem_reqs : VkMemoryRequirements
  vk_device_memory : Nat
  deriving DecidableEq, Repr

/-- The members of VkBufferCreateInfo that the constructor sets. -/
structure VkBufferCreateInfo where
  sType : Nat
  pNext : Nat
  flags : Nat
  size : Nat
  usage : Nat
  sharingMode : Nat
  deriving DecidableEq, Repr

/-- VkDescriptorBufferInfo, the value GetDescriptorInfo returns. -/
structure VkDescriptorBufferInfo where
  buffer : Nat
  offset : Nat
  range : Nat
  deriving DecidableEq, Repr

/-- The part of GravityDeviceExtIf the file reads: the device handle. -/
structure GravityDeviceExtIf where
  m_vk_device : Nat
  deriving DecidableEq, Repr

/-- The data members of a GravityUniformBuffer object.  The memory manager
pointer m_dev_memory_mgr is the Collaborators record passed to each method. -/
structure GravityUniformBuffer where
  m_total_reserved_size_bytes : Nat
  m_data_stride_bytes : Nat
  m_cpu_addr : Nat
  m_inst_ext_if : Nat
  m_dev_ext_if : GravityDeviceExtIf
  m_memory : GravityDeviceMemory
  m_vk_buffer : Nat
  deriving DecidableEq, Repr

/-- One call that leaves the class: to the Vulkan driver, to the memory
manager, to the logger, or to the C library. -/
inductive Call where
  | vkCreateBuffer (device : Nat) (info : VkBufferCreateInfo)
  | vkGetBufferMemoryRequirements (device buffer : Nat)
  | vkDestroyBuffer (device buffer : Nat)
  | vkBindBufferMemory (device buffer memory offset : Nat)
  | AllocateMemory (memory : GravityDeviceMemory) (flags : Nat)
  | FreeMemory (memory : GravityDeviceMemory)
  | MapMemory (memory : GravityDeviceMemory) (offset size : Nat)
  | UnmapMemory (memory : GravityDeviceMemory)
  | LogError (msg : String)
  | exit (code : Int)
  deriving DecidableEq, Repr

/-- The behaviour of the collaborators, over a state W of their own.  A
function that receives the descriptor by reference returns its new value; the
out-parameter ppData of MapMemory is the fourth argument and the third
component of the result. -/
structure Collaborators (W : Type) where
  vkCreateBuffer : W → Nat → VkBufferCreateInfo → Int × Nat × W
  vkGetBufferMemoryRequirements : W → Nat → Nat → VkMemoryRequirements × W
  vkDestroyBuffer : W → Nat → Nat → W
  vkBindBufferMemory : W → Nat → Nat → Nat → Nat → Int × W
  AllocateMemory : W → GravityDeviceMemory → Nat → Bool × GravityDeviceMemory × W
  FreeMemory : W → GravityDeviceMemory → GravityDeviceMemory × W
  MapMemory : W → GravityDeviceMemory → Nat → Nat → Nat → Bool × GravityDeviceMemory × Nat × W
  UnmapMemory : W → GravityDeviceMemory → GravityDeviceMemory × W

/-- The world outside the object: the collaborators' state and the log of the
calls made so far, oldest first. -/
structure World (W : Type) where
  ext : W
  calls : List Call

/-- Append one call to the log. -/
def World.record {W : Type} (w : World W) (c : Call) : World W :=
  { w with calls := w.calls ++ [c] }

/-- Text of a std::string after "+= vk_result": the VkResult is converted to
a char and appended as one byte. -/
def appendResult (msg : String) (vk_result : Int) : String :=
  msg.push (Char.ofNat (vk_result % 256).toNat)

namespace GravityUniformBuffer

variable {W : Type}

/-- The constructor.  It returns none when vkCreateBuffer fails: the source
logs an error and ends the process with exit(-1). -/
def ctor (c : Collaborators W) (w : World W) (inst_ext_if : Nat)
    (dev_ext_if : GravityDeviceExtIf) (total_reserved_size_bytes : Nat) :
    Option GravityUniformBuffer × World W :=
  let buffer_create_info : VkBufferCreateInfo :=
    { sType := VK_STRUCTURE_TYPE_BUFFER_CREATE_INFO
      pNext := nullptr
      flags := 0
      usage := VK_BUFFER_USAGE_UNIFORM_BUFFER_BIT
      sharingMode := VK_SHARING_MODE_EXCLUSIVE
      size := total_reserved_size_bytes }
  let created := c.vkCreateBuffer w.ext dev_ext_if.m_vk_device buffer_create_info
  let w1 : World W :=
    { ext := created.2.2
      calls := w.calls ++ [Call.vkCreateBuffer dev_ext_if.m_vk_device buffer_create_info] }
  if VK_SUCCESS ≠ created.1 then
    (none,
      (w1.record (Call.LogError (appendResult
        "GravityUniformBuffer::GravityUniformBuffer failed call to vkCreateBuffer with error "
        created.1))).record (Call.exit (-1)))
  else
    let reqs := c.vkGetBufferMemoryRequirements w1.ext dev_ext_if.m_vk_device created.2.1
    (some
      { m_total_reserved_size_bytes := total_reserved_size_bytes
        m_data_stride_bytes := 0
        m_cpu_addr := nullptr
        m_inst_ext_if := inst_ext_if
        m_dev_ext_if := dev_ext_if
        m_memory := { vk_mem_reqs := reqs.1, vk_device_memory := VK_NULL_HANDLE }
        m_vk_buffer := created.2.1 },
      { ext := reqs.2
        calls := w1.calls ++
          [Call.vkGetBufferMemoryRequirements dev_ext_if.m_vk_device created.2.1] })

/-- Unload: free the memory when it is bound, then destroy the buffer and
reset its handle.  Always returns true. -/
def Unload (c : Collaborators W) (self : GravityUniformBuffer) (w : World W) :
    Bool × GravityUniformBuffer × World W :=
  let freed : GravityUniformBuffer × World W :=
    if VK_NULL_HANDLE ≠ self.m_memory.vk_device_memory then
      let r := c.FreeMemory w.ext self.m_memory
      ({ self with m_memory := { r.1 with vk_device_memory := VK_NULL_HANDLE } },
        { ext := r.2, calls := w.calls ++ [Call.FreeMemory self.m_memory] })
    else
      (self, w)
  let w2 : World W :=
    { ext := c.vkDestroyBuffer freed.2.ext freed.1.m_dev_ext_if.m_vk_device freed.1.m_vk_buffer
      calls := freed.2.calls ++
        [Call.vkDestroyBuffer freed.1.m_dev_ext_if.m_vk_device freed.1.m_vk_buffer] }
  (true, { freed.1 with m_vk_buffer := VK_NULL_HANDLE }, w2)

/-- Cleanup, which the destructor also runs: Unload when the memory is bound,
then destroy the buffer and set the capacity to 0. -/
def Cleanup (c : Collaborators W) (self : GravityUniformBuffer) (w : World W) :
    GravityUniformBuffer × World W :=
  let unloaded : GravityUniformBuffer × World W :=
    if VK_NULL_HANDLE ≠ self.m_memory.vk_device_memory then
      (Unload c self w).2
    else
      (self, w)
  let w2 : World W :=
    { ext := c.vkDestroyBuffer unloaded.2.ext unloaded.1.m_dev_ext_if.m_vk_device
        unloaded.1.m_vk_buffer
      calls := unloaded.2.calls ++
        [Call.vkDestroyBuffer unloaded.1.m_dev_ext_if.m_vk_device unloaded.1.m_vk_buffer] }
  ({ unloaded.1 with m_total_reserved_size_bytes := 0 }, w2)

/-- The destructor: it runs Cleanup. -/
def dtor (c : Collaborators W) (self : GravityUniformBuffer) (w : World W) :
    GravityUniformBuffer × World W :=
  Cleanup c self w

/-- Load: store the stride, then ask the manager for device-local,
host-visible memory. -/
def Load (c : Collaborators W) (self : GravityUniformBuffer) (w : World W)
    (data_stride_bytes : Nat) : Bool × GravityUniformBuffer × World W :=
  let self1 := { self with m_data_stride_bytes := data_stride_bytes }
  let flags := VK_MEMORY_PROPERTY_DEVICE_LOCAL_BIT ||| VK_MEMORY_PROPERTY_HOST_VISIBLE_BIT
  let r := c.AllocateMemory w.ext self1.m_memory flags
  let self2 := { self1 with m_memory := r.2.1 }
  let w1 : World W :=
    { ext := r.2.2, calls := w.calls ++ [Call.AllocateMemory self1.m_memory flags] }
  if !r.1 then
    (false, self2, w1.record (Call.LogError
      "GravityUniformBuffer::Load failed GravityDeviceMemoryManager->AllocateMemory call"))
  else
    (true, self2, w1)

/-- Map: the offset is the uint32_t product index * m_data_stride_bytes,
widened to uint64_t after the multiplication. -/
def Map (c : Collaborators W) (self : GravityUniformBuffer) (w : World W)
    (index : Nat) (map_mem_size : Nat) : Nat × GravityUniformBuffer × World W :=
  let offset_bytes := (index * self.m_data_stride_bytes) % UINT32_SIZE
  let r := c.MapMemory w.ext self.m_memory offset_bytes map_mem_size self.m_cpu_addr
  let self1 := { self with m_memory := r.2.1, m_cpu_addr := r.2.2.1 }
  let w1 : World W :=
    { ext := r.2.2.2
      calls := w.calls ++ [Call.MapMemory self.m_memory offset_bytes map_mem_size] }
  if !r.1 then
    (nullptr, self1, w1.record (Call.LogError
      "GravityUniformBuffer::Map m_dev_memory_mgr->MapMemory failed"))
  else
    (self1.m_cpu_addr, self1, w1)

/-- Unmap: ask the manager to unmap, then clear the cached pointer. -/
def Unmap (c : Collaborators W) (self : GravityUniformBuffer) (w : World W) :
    GravityUniformBuffer × World W :=
  let r := c.UnmapMemory w.ext self.m_memory
  ({ self with m_memory := r.1, m_cpu_addr := nullptr },
    { ext := r.2, calls := w.calls ++ [Call.UnmapMemory self.m_memory] })

/-- Bind: bind the memory to the buffer at offset 0. -/
def Bind (c : Collaborators W) (self : GravityUniformBuffer) (w : World W) :
    Bool × GravityUniformBuffer × World W :=
  let r := c.vkBindBufferMemory w.ext self.m_dev_ext_if.m_vk_device self.m_vk_buffer
    self.m_memory.vk_device_memory 0
  let w1 : World W :=
    { ext := r.2
      calls := w.calls ++ [Call.vkBindBufferMemory self.m_dev_ext_if.m_vk_device
        self.m_vk_buffer self.m_memory.vk_device_memory 0] }
  if VK_SUCCESS ≠ r.1 then
    (false, self, w1.record (Call.LogError (appendResult
      "GravityUniformBuffer::Bind failed vkBindBufferMemory with error " r.1)))
  else
    (true, self, w1)

/-- GetDescriptorInfo: a value computed from the members, with the same
uint32_t product as Map for the offset. -/
def GetDescriptorInfo (self : GravityUniformBuffer) (index : Nat) : VkDescriptorBufferInfo :=
  { offset := (index * self.m_data_stride_bytes) % UINT32_SIZE
    range := self.m_data_stride_bytes
    buffer := self.m_vk_buffer }

end GravityUniformBuffer

/-! ## Sequences of method calls -/

/-- One method call on a live object, for statements about call sequences. -/
inductive Op where
  | Load (data_stride_bytes : Nat)
  | Bind
  | Map (index map_mem_size : Nat)
  | Unmap
  | GetDescriptorInfo (index : Nat)
  | Unload
  deriving DecidableEq, Repr

/-- Run one method call and keep the object and the world; the value the
method returns is dropped. -/
def step {W : Type} (c : Collaborators W) (o : Op) (sw : GravityUniformBuffer × World W) :
    GravityUniformBuffer × World W :=
  match o with
  | Op.Load d => (GravityUniformBuffer.Load c sw.1 sw.2 d).2
  | Op.Bind => (GravityUniformBuffer.Bind c sw.1 sw.2).2
  | Op.Map i n => (GravityUniformBuffer.Map c sw.1 sw.2 i n).2
  | Op.Unmap => GravityUniformBuffer.Unmap c sw.1 sw.2
  | Op.GetDescriptorInfo _ => sw
  | Op.Unload => (GravityUniformBuffer.Unload c sw.1 sw.2).2

/-- Run a sequence of method calls from left to right. -/
def run {W : Type} (c : Collaborators W) (ops : List Op) (sw : GravityUniformBuffer × World W) :
    GravityUniformBuffer × World W :=
  ops.foldl (fun acc o => step c o acc) sw

/-- Recogniser of the FreeMemory calls in a log. -/
def Call.isFreeMemory : Call → Bool
  | Call.FreeMemory _ => true
  | _ => false

/-- Recogniser of the vkDestroyBuffer calls in a log. -/
def Call.isDestroyBuffer : Call → Bool
  | Call.vkDestroyBuffer _ _ => true
  | _ => false

/-- The calls logged after the first n. -/
def callsSince (n : Nat) {W : Type} (w : World W) : List Call :=
  w.calls.drop n

/-! ## Concrete collaborators, used to evaluate the methods -/

/-- A driver and manager without state of their own.  vkCreateBuffer returns
handle 7, a successful AllocateMemory stores handle 5, a successful MapMemory
stores the address 4096 + offset; allocOk and mapOk choose whether the two
manager calls succeed, and a failing call writes nothing. -/
def sampleCollaborators (allocOk mapOk : Bool) : Collaborators Unit where
  vkCreateBuffer := fun _ _ _ => (VK_SUCCESS, 7, ())
  vkGetBufferMemoryRequirements := fun _ _ _ =>
    ({ size := 65536, alignment := 256, memoryTypeBits := 1 }, ())
  vkDestroyBuffer := fun _ _ _ => ()
  vkBindBufferMemory := fun _ _ _ _ _ => (VK_SUCCESS, ())
  AllocateMemory := fun _ m _ =>
    if allocOk then (true, { m with vk_device_memory := 5 }, ()) else (false, m, ())
  FreeMemory := fun _ m => (m, ())
  MapMemory := fun _ m off _ old =>
    if mapOk then (true, m, 4096 + off, ()) else (false, m, old, ())
  UnmapMemory := fun _ m => (m, ())

/-- The sample driver and manager, except that UnmapMemory writes to the
descriptor it receives by reference: it adds 1 to vk_mem_reqs.size. -/
def rewritingCollaborators : Collaborators Unit :=
  { sampleCollaborators true true with
    UnmapMemory := fun _ m =>
      ({ m with vk_mem_reqs := { m.vk_mem_reqs with size := m.vk_mem_reqs.size + 1 } }, ()) }

/-- The world before any call. -/
def emptyWorld : World Unit :=
  { ext := (), calls := [] }

/-- A uniform buffer as the constructor leaves it with the sample driver
(capacity 65536, buffer handle 7, device handle 1), with a stride set. -/
def sampleBuffer (stride : Nat) : GravityUniformBuffer :=
  { m_total_reserved_size_bytes := 65536
    m_data_stride_bytes := stride
    m_cpu_addr := nullptr
    m_inst_ext_if := 0
    m_dev_ext_if := { m_vk_device := 1 }
    m_memory :=
      { vk_mem_reqs := { size := 65536, alignment := 256, memoryTypeBits := 1 }
        vk_device_memory := VK_NULL_HANDLE }
    m_vk_buffer := 7 }

/-- The sample buffer after a successful allocation: memory handle 5. -/
def loadedBuffer (stride : Nat) : GravityUniformBuffer :=
  { sampleBuffer stride with
    m_memory :=
      { vk_mem_reqs := { size := 65536, alignment := 256, memoryTypeBits := 1 }
        vk_device_memory := 5 } }

open GravityUniformBuffer

/-! ## Shared lemmas -/

/-- The stride is read, never written, by GetDescriptorInfo: the offset it
reports is the product reduced modulo 2^32. -/
theorem descriptor_offset_eq (self : GravityUniformBuffer) (index : Nat) :
    (GetDescriptorInfo self index).offset
      = (index * self.m_data_stride_bytes) % UINT32_SIZE := rfl

/-- The log after Map: the log before, one MapMemory call, and one error
message when the manager reports failure. -/
theorem Map_calls {W : Type} (c : Collaborators W) (self : GravityUniformBuffer) (w : World W)
    (index map_mem_size : Nat) :
    (Map c self w index map_mem_size).2.2.calls
      = w.calls ++
        Call.MapMemory self.m_memory ((index * self.m_data_stride_bytes) % UINT32_SIZE)
            map_mem_size ::
          (if (c.MapMemory w.ext self.m_memory
                ((index * self.m_data_stride_bytes) % UINT32_SIZE) map_mem_size
                self.m_cpu_addr).1
            then []
            else [Call.LogError "GravityUniformBuffer::Map m_dev_memory_mgr->MapMemory failed"]) := by
  unfold Map
  by_cases h : (c.MapMemory w.ext self.m_memory
      ((index * self.m_data_stride_bytes) % UINT32_SIZE) map_mem_size self.m_cpu_addr).1 = true
  · simp [h]
  · simp [h, World.record]

/-! ## C2: Map -/

/-- C2, as stated, fails: with stride 65536, Map(65536, 256) asks the manager
for offset 0, not for the product 4294967296. -/
theorem C2_map_offset_is_not_the_product :
    (Map (sampleCollaborators true true) (loadedBuffer 65536) emptyWorld 65536 256).2.2.calls
      = [Call.MapMemory (loadedBuffer 65536).m_memory 0 256] ∧
    ¬ (Map (sampleCollaborators true true) (loadedBuffer 65536) emptyWorld 65536 256).2.2.calls
      = [Call.MapMemory (loadedBuffer 65536).m_memory
          (65536 * (loadedBuffer 65536).m_data_stride_bytes) 256] := by
  decide

/-- C2, amended: Map makes exactly one MapMemory call, on the descriptor of
the object, with size n and offset (i * stride) mod 2^32 (the product itself
when it is below 2^32); it returns the pointer the manager stored when the
manager reports success, and null, after one logged error, when it reports
failure. -/
theorem C2_Map_amended {W : Type} (c : Collaborators W) (self : GravityUniformBuffer)
    (w : World W) (index map_mem_size : Nat) :
    let offset_bytes := (index * self.m_data_stride_bytes) % UINT32_SIZE
    let answer := c.MapMemory w.ext self.m_memory offset_bytes map_mem_size self.m_cpu_addr
    let result := Map c self w index map_mem_size
    (index * self.m_data_stride_bytes < UINT32_SIZE →
      offset_bytes = index * self.m_data_stride_bytes) ∧
    (answer.1 = true →
      result.1 = answer.2.2.1 ∧
      result.2.2.calls = w.calls ++ [Call.MapMemory self.m_memory offset_bytes map_mem_size]) ∧
    (answer.1 = false →
      result.1 = nullptr ∧
      result.2.2.calls = w.calls ++
        [Call.MapMemory self.m_memory offset_bytes map_mem_size,
         Call.LogError "GravityUniformBuffer::Map m_dev_memory_mgr->MapMemory failed"]) ∧
    result.2.1.m_cpu_addr = answer.2.2.1 ∧
    result.2.2.ext = answer.2.2.2 := by
  intro offset_bytes answer result
  refine ⟨fun h => Nat.mod_eq_of_lt h, fun h => ?_, fun h => ?_, ?_, ?_⟩
  · refine ⟨?_, ?_⟩
    · simp only [result, Map]
      simp [answer, offset_bytes] at h
      simp [h]
    · have := Map_calls c self w index map_mem_size
      simp only [result]
      rw [this]
      simp [answer, offset_bytes] at h
      simp [h]
  · refine ⟨?_, ?_⟩
    · simp only [result, Map]
      simp [answer, offset_bytes] at h
      simp [h]
    · have := Map_calls c self w index map_mem_size
      simp only [result]
      rw [this]
      simp [answer, offset_bytes] at h
      simp [h]
  · simp only [result, Map]
    split <;> rfl
  · simp only [result, Map]
    split <;> rfl

/-- C2 amended, at stride 256: Map(2, 256) asks for offset 512 and size 256
and returns the pointer of the manager; with a failing manager it returns
null. -/
theorem C2_Map_amended_witness :
    (Map (sampleCollaborators true true) (loadedBuffer 256) emptyWorld 2 256).1 = 4096 + 512 ∧
    (Map (sampleCollaborators true true) (loadedBuffer 256) emptyWorld 2 256).2.2.calls
      = [] ++ [Call.MapMemory (loadedBuffer 256).m_memory (2 * 256 % UINT32_SIZE) 256] ∧
    (Map (sampleCollaborators true false) (loadedBuffer 256) emptyWorld 2 256).1 = nullptr ∧
    2 * 256 % UINT32_SIZE = 2 * 256 :=
  ⟨((C2_Map_amended (sampleCollaborators true true) (loadedBuffer 256) emptyWorld 2 256).2.1
      (by decide)).1,
    ((C2_Map_amended (sampleCollaborators true true) (loadedBuffer 256) emptyWorld 2 256).2.1
      (by decide)).2,
    ((C2_Map_amended (sampleCollaborators true false) (loadedBuffer 256) emptyWorld 2 256).2.2.1
      (by decide)).1,
    (C2_Map_amended (sampleCollaborators true true) (loadedBuffer 256) emptyWorld 2 256).1
      (by decide)⟩

/-! ## C10: the 32-bit offset -/

/-- C10: the offset Map passes to the manager is the offset
GetDescriptorInfo reports; both are (i * stride) mod 2^32, a value below 2^32,
and equal the product i * stride exactly when the product is below 2^32. -/
theorem C10_offsets_agree_and_wrap {W : Type} (c : Collaborators W)
    (self : GravityUniformBuffer) (w : World W) (index map_mem_size : Nat) :
    (Map c self w index map_mem_size).2.2.calls[w.calls.length]?
      = some (Call.MapMemory self.m_memory (GetDescriptorInfo self index).offset map_mem_size) ∧
    (Map c self w index map_mem_size).2.2.ext
      = (c.MapMemory w.ext self.m_memory (GetDescriptorInfo self index).offset map_mem_size
          self.m_cpu_addr).2.2.2 ∧
    (GetDescriptorInfo self index).offset = (index * self.m_data_stride_bytes) % 2 ^ 32 ∧
    (GetDescriptorInfo self index).offset < 2 ^ 32 ∧
    ((GetDescriptorInfo self index).offset = index * self.m_data_stride_bytes
      ↔ index * self.m_data_stride_bytes < 2 ^ 32) := by
  refine ⟨?_, ?_, rfl, ?_, ?_⟩
  · rw [Map_calls, descriptor_offset_eq, List.getElem?_append_right (le_refl _)]
    simp
  · simp only [Map, descriptor_offset_eq]
    split <;> rfl
  · rw [descriptor_offset_eq]
    exact Nat.mod_lt _ (by decide)
  · rw [descriptor_offset_eq]
    exact Nat.mod_eq_iff_lt (by decide)

/-! ## C3: Load -/

/-- The log after Load: the log before, one AllocateMemory call, and one
error message when the manager reports failure. -/
theorem Load_calls {W : Type} (c : Collaborators W) (self : GravityUniformBuffer) (w : World W)
    (d : Nat) :
    (Load c self w d).2.2.calls
      = w.calls ++
        Call.AllocateMemory self.m_memory
            (VK_MEMORY_PROPERTY_DEVICE_LOCAL_BIT ||| VK_MEMORY_PROPERTY_HOST_VISIBLE_BIT) ::
          (if (c.AllocateMemory w.ext self.m_memory
                (VK_MEMORY_PROPERTY_DEVICE_LOCAL_BIT ||| VK_MEMORY_PROPERTY_HOST_VISIBLE_BIT)).1
            then []
            else [Call.LogError
              "GravityUniformBuffer::Load failed GravityDeviceMemoryManager->AllocateMemory call"]) := by
  unfold Load
  by_cases h : (c.AllocateMemory w.ext self.m_memory
      (VK_MEMORY_PROPERTY_DEVICE_LOCAL_BIT ||| VK_MEMORY_PROPERTY_HOST_VISIBLE_BIT)).1 = true
  · simp [h]
  · simp [h, World.record]

/-- The object after Load: the stride is the argument, the descriptor is what
the manager left, every other member is as before. -/
theorem Load_state {W : Type} (c : Collaborators W) (self : GravityUniformBuffer) (w : World W)
    (d : Nat) :
    (Load c self w d).2.1
      = { self with
          m_data_stride_bytes := d
          m_memory := (c.AllocateMemory w.ext self.m_memory
            (VK_MEMORY_PROPERTY_DEVICE_LOCAL_BIT ||| VK_MEMORY_PROPERTY_HOST_VISIBLE_BIT)).2.1 } := by
  simp only [Load]
  split <;> rfl

/-- The value Load returns is the value AllocateMemory returned. -/
theorem Load_result {W : Type} (c : Collaborators W) (self : GravityUniformBuffer) (w : World W)
    (d : Nat) :
    (Load c self w d).1
      = (c.AllocateMemory w.ext self.m_memory
          (VK_MEMORY_PROPERTY_DEVICE_LOCAL_BIT ||| VK_MEMORY_PROPERTY_HOST_VISIBLE_BIT)).1 := by
  unfold Load
  by_cases h : (c.AllocateMemory w.ext self.m_memory
      (VK_MEMORY_PROPERTY_DEVICE_LOCAL_BIT ||| VK_MEMORY_PROPERTY_HOST_VISIBLE_BIT)).1 = true
  · simp [h]
  · simp [h]

/-- C3: Load(d) makes one AllocateMemory call, with the flags device-local
and host-visible and nothing else; it returns true exactly when that call
succeeds; the stride is d afterwards in both cases; when the call fails Load
returns false and logs one error, and if the manager left the descriptor
untouched the object equals the object before the call except for the
stride. -/
theorem C3_Load {W : Type} (c : Collaborators W) (self : GravityUniformBuffer) (w : World W)
    (d : Nat) :
    let flags := VK_MEMORY_PROPERTY_DEVICE_LOCAL_BIT ||| VK_MEMORY_PROPERTY_HOST_VISIBLE_BIT
    let answer := c.AllocateMemory w.ext self.m_memory flags
    let result := Load c self w d
    (∀ bit : Nat, flags.testBit bit = true ↔ (bit = 0 ∨ bit = 1)) ∧
    result.2.2.calls[w.calls.length]? = some (Call.AllocateMemory self.m_memory flags) ∧
    (result.1 = true ↔ answer.1 = true) ∧
    result.2.1.m_data_stride_bytes = d ∧
    (answer.1 = true →
      result.2.2.calls = w.calls ++ [Call.AllocateMemory self.m_memory flags]) ∧
    (answer.1 = false →
      result.1 = false ∧
      result.2.2.calls = w.calls ++
        [Call.AllocateMemory self.m_memory flags,
         Call.LogError
          "GravityUniformBuffer::Load failed GravityDeviceMemoryManager->AllocateMemory call"]) ∧
    (answer.1 = false → answer.2.1 = self.m_memory →
      result.2.1 = { self with m_data_stride_bytes := d }) := by
  intro flags answer result
  refine ⟨?_, ?_, ?_, ?_, fun h => ?_, fun h => ⟨?_, ?_⟩, fun _ h => ?_⟩
  · intro bit
    have hf : flags = 3 := by decide
    rw [hf]
    constructor
    · intro h
      by_contra hne
      push_neg at hne
      have h2 : 2 ≤ bit := by omega
      have : (3 : Nat) < 2 ^ bit :=
        lt_of_lt_of_le (by decide : (3 : Nat) < 2 ^ 2) (Nat.pow_le_pow_right (by decide) h2)
      rw [Nat.testBit_lt_two_pow this] at h
      exact absurd h (by decide)
    · rintro (h | h) <;> subst h <;> decide
  · simp only [result]
    rw [Load_calls, List.getElem?_append_right (le_refl _)]
    simp [flags]
  · simp only [result]
    rw [Load_result]
  · simp only [result]
    rw [Load_state]
  · simp only [result]
    rw [Load_calls]
    simp only [answer, flags] at h
    simp [h, flags]
  · simp only [result]
    rw [Load_result]
    exact h
  · simp only [result]
    rw [Load_calls]
    simp only [answer, flags] at h
    simp [h, flags]
  · simp only [result]
    rw [Load_state]
    simp only [answer, flags] at h
    rw [h]

/-- C3, with a manager whose AllocateMemory fails: Load(64) returns false,
logs one error, and leaves the sample buffer as it was but for stride 64. -/
theorem C3_Load_witness :
    (Load (sampleCollaborators false true) (sampleBuffer 0) emptyWorld 64).1 = false ∧
    (Load (sampleCollaborators false true) (sampleBuffer 0) emptyWorld 64).2.2.calls
      = [] ++ [Call.AllocateMemory (sampleBuffer 0).m_memory 3,
         Call.LogError
          "GravityUniformBuffer::Load failed GravityDeviceMemoryManager->AllocateMemory call"] ∧
    (Load (sampleCollaborators false true) (sampleBuffer 0) emptyWorld 64).2.1 = sampleBuffer 64 ∧
    (Load (sampleCollaborators true true) (sampleBuffer 0) emptyWorld 64).2.2.calls
      = [] ++ [Call.AllocateMemory (sampleBuffer 0).m_memory 3] :=
  ⟨((C3_Load (sampleCollaborators false true) (sampleBuffer 0) emptyWorld 64).2.2.2.2.2.1
      (by decide)).1,
    ((C3_Load (sampleCollaborators false true) (sampleBuffer 0) emptyWorld 64).2.2.2.2.2.1
      (by decide)).2,
    (C3_Load (sampleCollaborators false true) (sampleBuffer 0) emptyWorld 64).2.2.2.2.2.2
      (by decide) (by decide),
    (C3_Load (sampleCollaborators true true) (sampleBuffer 0) emptyWorld 64).2.2.2.2.1
      (by decide)⟩

/-! ## C4: Unload -/

/-- The log after Unload: one FreeMemory call when the memory was bound, then
one vkDestroyBuffer call on the buffer handle held before the call. -/
theorem Unload_calls {W : Type} (c : Collaborators W) (self : GravityUniformBuffer)
    (w : World W) :
    (Unload c self w).2.2.calls
      = w.calls ++
        ((if VK_NULL_HANDLE ≠ self.m_memory.vk_device_memory
            then [Call.FreeMemory self.m_memory] else []) ++
          [Call.vkDestroyBuffer self.m_dev_ext_if.m_vk_device self.m_vk_buffer]) := by
  unfold Unload
  by_cases h : VK_NULL_HANDLE ≠ self.m_memory.vk_device_memory
  · simp [h]
  · simp [h]

/-- The object after Unload. -/
theorem Unload_state {W : Type} (c : Collaborators W) (self : GravityUniformBuffer)
    (w : World W) :
    (Unload c self w).2.1
      = { self with
          m_vk_buffer := VK_NULL_HANDLE
          m_memory :=
            if VK_NULL_HANDLE ≠ self.m_memory.vk_device_memory
            then { (c.FreeMemory w.ext self.m_memory).1 with vk_device_memory := VK_NULL_HANDLE }
            else self.m_memory } := by
  unfold Unload
  by_cases h : VK_NULL_HANDLE ≠ self.m_memory.vk_device_memory
  · simp [h]
  · simp [h]

/-- After Unload both the memory handle and the buffer handle are
VK_NULL_HANDLE. -/
theorem Unload_resets_handles {W : Type} (c : Collaborators W) (self : GravityUniformBuffer)
    (w : World W) :
    (Unload c self w).2.1.m_memory.vk_device_memory = VK_NULL_HANDLE ∧
    (Unload c self w).2.1.m_vk_buffer = VK_NULL_HANDLE := by
  rw [Unload_state]
  refine ⟨?_, rfl⟩
  by_cases h : VK_NULL_HANDLE ≠ self.m_memory.vk_device_memory
  · simp [h]
  · simp only [h, if_false]
    exact (not_not.mp h).symm

/-- C4: Unload returns true; afterwards the memory handle and the buffer
handle are VK_NULL_HANDLE; FreeMemory is called once when the memory handle
was bound and not at all when it was not; vkDestroyBuffer is called once, on
the buffer handle held before the call; stride, capacity and cached pointer
are unchanged. -/
theorem C4_Unload {W : Type} (c : Collaborators W) (self : GravityUniformBuffer)
    (w : World W) :
    let result := Unload c self w
    result.1 = true ∧
    result.2.1.m_memory.vk_device_memory = VK_NULL_HANDLE ∧
    result.2.1.m_vk_buffer = VK_NULL_HANDLE ∧
    (self.m_memory.vk_device_memory ≠ VK_NULL_HANDLE →
      result.2.2.calls = w.calls ++
        [Call.FreeMemory self.m_memory,
         Call.vkDestroyBuffer self.m_dev_ext_if.m_vk_device self.m_vk_buffer]) ∧
    (self.m_memory.vk_device_memory = VK_NULL_HANDLE →
      result.2.2.calls = w.calls ++
        [Call.vkDestroyBuffer self.m_dev_ext_if.m_vk_device self.m_vk_buffer]) ∧
    (callsSince w.calls.length result.2.2).countP Call.isFreeMemory
      = (if self.m_memory.vk_device_memory ≠ VK_NULL_HANDLE then 1 else 0) ∧
    (callsSince w.calls.length result.2.2).filter Call.isDestroyBuffer
      = [Call.vkDestroyBuffer self.m_dev_ext_if.m_vk_device self.m_vk_buffer] ∧
    result.2.1.m_data_stride_bytes = self.m_data_stride_bytes ∧
    result.2.1.m_total_reserved_size_bytes = self.m_total_reserved_size_bytes ∧
    result.2.1.m_cpu_addr = self.m_cpu_addr := by
  intro result
  have hs := Unload_state c self w
  have hc := Unload_calls c self w
  refine ⟨rfl, ?_, ?_, fun h => ?_, fun h => ?_, ?_, ?_, ?_, ?_, ?_⟩
  · simp only [result]
    rw [hs]
    by_cases h : VK_NULL_HANDLE ≠ self.m_memory.vk_device_memory
    · simp [h]
    · simp only [h, if_false]
      exact (not_not.mp h).symm
  · simp only [result]
    rw [hs]
  · simp only [result]
    rw [hc]
    simp [Ne.symm h]
  · simp only [result]
    rw [hc]
    simp [h]
  · simp only [result, callsSince]
    rw [hc]
    by_cases h : VK_NULL_HANDLE ≠ self.m_memory.vk_device_memory
    · simp [h, Ne.symm h, Call.isFreeMemory]
    · have h2 : self.m_memory.vk_device_memory = VK_NULL_HANDLE := (not_not.mp h).symm
      simp [h2, Call.isFreeMemory]
  · simp only [result, callsSince]
    rw [hc]
    by_cases h : VK_NULL_HANDLE ≠ self.m_memory.vk_device_memory
    · simp [h, Call.isDestroyBuffer, Call.isFreeMemory]
    · simp [h, Call.isDestroyBuffer]
  · simp only [result]
    rw [hs]
  · simp only [result]
    rw [hs]
  · simp only [result]
    rw [hs]

/-- C4, on a buffer whose memory is bound and on one whose memory is not. -/
theorem C4_Unload_witness :
    (Unload (sampleCollaborators true true) (loadedBuffer 256) emptyWorld).2.2.calls
      = [] ++ [Call.FreeMemory (loadedBuffer 256).m_memory, Call.vkDestroyBuffer 1 7] ∧
    (Unload (sampleCollaborators true true) (sampleBuffer 256) emptyWorld).2.2.calls
      = [] ++ [Call.vkDestroyBuffer 1 7] :=
  ⟨(C4_Unload (sampleCollaborators true true) (loadedBuffer 256) emptyWorld).2.2.2.1
      (by decide),
    (C4_Unload (sampleCollaborators true true) (sampleBuffer 256) emptyWorld).2.2.2.2.1
      (by decide)⟩

/-! ## C6 and C7: Cleanup -/

/-- The log after Cleanup.  With bound memory: FreeMemory and vkDestroyBuffer
from Unload, then vkDestroyBuffer on the handle Unload has reset.  With
unbound memory: vkDestroyBuffer on the buffer handle. -/
theorem Cleanup_calls {W : Type} (c : Collaborators W) (self : GravityUniformBuffer)
    (w : World W) :
    (Cleanup c self w).2.calls
      = w.calls ++
        (if VK_NULL_HANDLE ≠ self.m_memory.vk_device_memory
          then [Call.FreeMemory self.m_memory,
                Call.vkDestroyBuffer self.m_dev_ext_if.m_vk_device self.m_vk_buffer,
                Call.vkDestroyBuffer self.m_dev_ext_if.m_vk_device VK_NULL_HANDLE]
          else [Call.vkDestroyBuffer self.m_dev_ext_if.m_vk_device self.m_vk_buffer]) := by
  by_cases h : VK_NULL_HANDLE ≠ self.m_memory.vk_device_memory
  · simp only [Cleanup, if_pos h]
    rw [Unload_calls, Unload_state]
    simp [h]
  · simp [Cleanup, h]

/-- The object after Cleanup. -/
theorem Cleanup_state {W : Type} (c : Collaborators W) (self : GravityUniformBuffer)
    (w : World W) :
    (Cleanup c self w).1
      = if VK_NULL_HANDLE ≠ self.m_memory.vk_device_memory
        then { self with
               m_total_reserved_size_bytes := 0
               m_vk_buffer := VK_NULL_HANDLE
               m_memory :=
                { (c.FreeMemory w.ext self.m_memory).1 with vk_device_memory := VK_NULL_HANDLE } }
        else { self with m_total_reserved_size_bytes := 0 } := by
  by_cases h : VK_NULL_HANDLE ≠ self.m_memory.vk_device_memory
  · simp only [Cleanup, if_pos h]
    rw [Unload_state]
    simp [h]
  · simp [Cleanup, h]

/-- After Cleanup the memory handle is VK_NULL_HANDLE. -/
theorem Cleanup_unbinds {W : Type} (c : Collaborators W) (self : GravityUniformBuffer)
    (w : World W) :
    (Cleanup c self w).1.m_memory.vk_device_memory = VK_NULL_HANDLE := by
  rw [Cleanup_state]
  by_cases h : VK_NULL_HANDLE ≠ self.m_memory.vk_device_memory
  · simp [h]
  · simp only [h, if_false]
    exact (not_not.mp h).symm

/-- A second Cleanup leaves every member of the object as the first left
it. -/
theorem Cleanup_twice_state {W : Type} (c : Collaborators W) (self : GravityUniformBuffer)
    (w : World W) :
    (Cleanup c (Cleanup c self w).1 (Cleanup c self w).2).1 = (Cleanup c self w).1 := by
  have hu := Cleanup_unbinds c self w
  have hcap : (Cleanup c self w).1.m_total_reserved_size_bytes = 0 := by
    rw [Cleanup_state]
    split <;> rfl
  rw [Cleanup_state c (Cleanup c self w).1]
  have hn : ¬ VK_NULL_HANDLE ≠ (Cleanup c self w).1.m_memory.vk_device_memory := by
    rw [hu]
    exact fun h => h rfl
  rw [if_neg hn, ← hcap]

/-- C6: when Cleanup runs twice in a row, also when the second run is the
destructor, the second run calls vkDestroyBuffer only and never FreeMemory;
over both runs FreeMemory is called once when the memory handle was bound
before the first run and not at all otherwise. -/
theorem C6_Cleanup_twice_frees_once {W : Type} (c : Collaborators W)
    (self : GravityUniformBuffer) (w : World W) :
    let first := Cleanup c self w
    let second := Cleanup c first.1 first.2
    dtor c first.1 first.2 = second ∧
    second.2.calls = first.2.calls ++
      [Call.vkDestroyBuffer first.1.m_dev_ext_if.m_vk_device first.1.m_vk_buffer] ∧
    (callsSince first.2.calls.length second.2).countP Call.isFreeMemory = 0 ∧
    (callsSince w.calls.length second.2).countP Call.isFreeMemory
      = (if self.m_memory.vk_device_memory ≠ VK_NULL_HANDLE then 1 else 0) ∧
    (callsSince w.calls.length second.2).countP Call.isFreeMemory ≤ 1 := by
  intro first second
  have hu : first.1.m_memory.vk_device_memory = VK_NULL_HANDLE := Cleanup_unbinds c self w
  have h2 : second.2.calls = first.2.calls ++
      [Call.vkDestroyBuffer first.1.m_dev_ext_if.m_vk_device first.1.m_vk_buffer] := by
    simp only [second]
    rw [Cleanup_calls]
    simp [hu]
  have h1 : first.2.calls = w.calls ++
        (if VK_NULL_HANDLE ≠ self.m_memory.vk_device_memory
          then [Call.FreeMemory self.m_memory,
                Call.vkDestroyBuffer self.m_dev_ext_if.m_vk_device self.m_vk_buffer,
                Call.vkDestroyBuffer self.m_dev_ext_if.m_vk_device VK_NULL_HANDLE]
          else [Call.vkDestroyBuffer self.m_dev_ext_if.m_vk_device self.m_vk_buffer]) :=
    Cleanup_calls c self w
  have hcount : (callsSince w.calls.length second.2).countP Call.isFreeMemory
      = (if self.m_memory.vk_device_memory ≠ VK_NULL_HANDLE then 1 else 0) := by
    simp only [callsSince]
    rw [h2, h1]
    by_cases h : VK_NULL_HANDLE ≠ self.m_memory.vk_device_memory
    · simp [h, Ne.symm h, Call.isFreeMemory]
    · have h3 : self.m_memory.vk_device_memory = VK_NULL_HANDLE := (not_not.mp h).symm
      simp [h3, Call.isFreeMemory]
  refine ⟨rfl, h2, ?_, hcount, ?_⟩
  · simp only [callsSince]
    rw [h2]
    simp [Call.isFreeMemory]
  · rw [hcount]
    split <;> omega

/-- C7 fails on a buffer whose memory was never loaded: the first Cleanup
destroys buffer handle 7 and leaves the handle in place, and the second
Cleanup calls vkDestroyBuffer on handle 7 again.  The object itself is the
same after the second Cleanup as after the first. -/
theorem C7_second_Cleanup_destroys_again :
    (sampleBuffer 0).m_memory.vk_device_memory = VK_NULL_HANDLE ∧
    (sampleBuffer 0).m_vk_buffer = 7 ∧
    (Cleanup (sampleCollaborators true true) (sampleBuffer 0) emptyWorld).2.calls
      = [Call.vkDestroyBuffer 1 7] ∧
    (Cleanup (sampleCollaborators true true)
        (Cleanup (sampleCollaborators true true) (sampleBuffer 0) emptyWorld).1
        (Cleanup (sampleCollaborators true true) (sampleBuffer 0) emptyWorld).2).2.calls
      = [Call.vkDestroyBuffer 1 7, Call.vkDestroyBuffer 1 7] ∧
    (Cleanup (sampleCollaborators true true)
        (Cleanup (sampleCollaborators true true) (sampleBuffer 0) emptyWorld).1
        (Cleanup (sampleCollaborators true true) (sampleBuffer 0) emptyWorld).2).1
      = (Cleanup (sampleCollaborators true true) (sampleBuffer 0) emptyWorld).1 := by
  decide

/-! ## C5: the buffer handle over a sequence of calls -/

/-- Every method but Unload leaves the buffer handle as it is. -/
theorem step_keeps_buffer {W : Type} (c : Collaborators W) (o : Op)
    (sw : GravityUniformBuffer × World W) (h : o ≠ Op.Unload) :
    (step c o sw).1.m_vk_buffer = sw.1.m_vk_buffer := by
  cases o with
  | Load d => simp only [step, Load_state]
  | Bind =>
    simp only [step, GravityUniformBuffer.Bind]
    split <;> rfl
  | Map i n =>
    simp only [step, Map]
    split <;> rfl
  | Unmap => rfl
  | GetDescriptorInfo i => rfl
  | Unload => exact absurd rfl h

/-- Unload resets the buffer handle. -/
theorem step_Unload_buffer {W : Type} (c : Collaborators W)
    (sw : GravityUniformBuffer × World W) :
    (step c Op.Unload sw).1.m_vk_buffer = VK_NULL_HANDLE := by
  simp only [step, Unload_state]

/-- No method sets a null buffer handle to anything else. -/
theorem step_keeps_null_buffer {W : Type} (c : Collaborators W) (o : Op)
    (sw : GravityUniformBuffer × World W) (h : sw.1.m_vk_buffer = VK_NULL_HANDLE) :
    (step c o sw).1.m_vk_buffer = VK_NULL_HANDLE := by
  by_cases ho : o = Op.Unload
  · rw [ho]
    exact step_Unload_buffer c sw
  · rw [step_keeps_buffer c o sw ho]
    exact h

/-- A sequence without Unload leaves the buffer handle as it is. -/
theorem run_keeps_buffer {W : Type} (c : Collaborators W) (ops : List Op) :
    ∀ sw : GravityUniformBuffer × World W, Op.Unload ∉ ops →
      (run c ops sw).1.m_vk_buffer = sw.1.m_vk_buffer := by
  induction ops with
  | nil => intro sw _; rfl
  | cons o rest ih =>
    intro sw h
    have ho : o ≠ Op.Unload := fun e => h (by simp [e])
    have hr : Op.Unload ∉ rest := fun e => h (by simp [e])
    have : run c (o :: rest) sw = run c rest (step c o sw) := rfl
    rw [this, ih (step c o sw) hr, step_keeps_buffer c o sw ho]

/-- A sequence that starts with a null buffer handle ends with one. -/
theorem run_keeps_null_buffer {W : Type} (c : Collaborators W) (ops : List Op) :
    ∀ sw : GravityUniformBuffer × World W, sw.1.m_vk_buffer = VK_NULL_HANDLE →
      (run c ops sw).1.m_vk_buffer = VK_NULL_HANDLE := by
  induction ops with
  | nil => intro sw h; exact h
  | cons o rest ih =>
    intro sw h
    have : run c (o :: rest) sw = run c rest (step c o sw) := rfl
    rw [this]
    exact ih (step c o sw) (step_keeps_null_buffer c o sw h)

/-- A sequence with an Unload in it ends with a null buffer handle. -/
theorem run_with_Unload {W : Type} (c : Collaborators W) (ops : List Op) :
    ∀ sw : GravityUniformBuffer × World W, Op.Unload ∈ ops →
      (run c ops sw).1.m_vk_buffer = VK_NULL_HANDLE := by
  induction ops with
  | nil => intro sw h; simp at h
  | cons o rest ih =>
    intro sw h
    have hrun : run c (o :: rest) sw = run c rest (step c o sw) := rfl
    rw [hrun]
    by_cases ho : o = Op.Unload
    · rw [ho]
      exact run_keeps_null_buffer c rest _ (step_Unload_buffer c sw)
    · have hr : Op.Unload ∈ rest := by
        rcases List.mem_cons.mp h with e | e
        · exact absurd e.symm ho
        · exact e
      exact ih (step c o sw) hr

/-- The constructor stores the handle vkCreateBuffer wrote and a null cached
pointer, stride 0 and an unbound memory handle. -/
theorem ctor_some {W : Type} (c : Collaborators W) (w : World W) (inst_ext_if : Nat)
    (dev_ext_if : GravityDeviceExtIf) (total_reserved_size_bytes : Nat)
    (b : GravityUniformBuffer)
    (h : (ctor c w inst_ext_if dev_ext_if total_reserved_size_bytes).1 = some b) :
    b.m_vk_buffer
      = (c.vkCreateBuffer w.ext dev_ext_if.m_vk_device
          { sType := VK_STRUCTURE_TYPE_BUFFER_CREATE_INFO
            pNext := nullptr
            flags := 0
            usage := VK_BUFFER_USAGE_UNIFORM_BUFFER_BIT
            sharingMode := VK_SHARING_MODE_EXCLUSIVE
            size := total_reserved_size_bytes }).2.1 ∧
    b.m_cpu_addr = nullptr ∧
    b.m_data_stride_bytes = 0 ∧
    b.m_memory.vk_device_memory = VK_NULL_HANDLE ∧
    b.m_total_reserved_size_bytes = total_reserved_size_bytes ∧
    (c.vkCreateBuffer w.ext dev_ext_if.m_vk_device
          { sType := VK_STRUCTURE_TYPE_BUFFER_CREATE_INFO
            pNext := nullptr
            flags := 0
            usage := VK_BUFFER_USAGE_UNIFORM_BUFFER_BIT
            sharingMode := VK_SHARING_MODE_EXCLUSIVE
            size := total_reserved_size_bytes }).1 = VK_SUCCESS := by
  simp only [ctor] at h
  split at h
  · simp at h
  · rename_i hok
    simp only [Option.some.injEq] at h
    subst h
    exact ⟨rfl, rfl, rfl, rfl, rfl, (not_not.mp hok).symm⟩

/-- C5, as stated, fails: on the buffer the constructor returns with the
sample driver (handle 7), one Unload leaves the buffer handle null. -/
theorem C5_Unload_resets_the_buffer_handle :
    (ctor (sampleCollaborators true true) emptyWorld 0 { m_vk_device := 1 } 65536).1
      = some (sampleBuffer 0) ∧
    (sampleBuffer 0).m_vk_buffer = 7 ∧
    (run (sampleCollaborators true true) [Op.Unload]
      (sampleBuffer 0,
        (ctor (sampleCollaborators true true) emptyWorld 0 { m_vk_device := 1 } 65536).2)).1.m_vk_buffer
      = VK_NULL_HANDLE ∧
    ¬ (run (sampleCollaborators true true) [Op.Unload]
      (sampleBuffer 0,
        (ctor (sampleCollaborators true true) emptyWorld 0 { m_vk_device := 1 } 65536).2)).1.m_vk_buffer
      = (sampleBuffer 0).m_vk_buffer := by
  decide

/-- C5, amended: on a constructed buffer, where the driver writes a non-null
handle when vkCreateBuffer succeeds, the buffer handle is valid (non-null)
after construction, and after any sequence of Load, Bind, Map, Unmap and
GetDescriptorInfo calls it is still the non-null handle vkCreateBuffer wrote
at construction; after any sequence of those calls and Unload with an Unload
in it, the buffer handle is VK_NULL_HANDLE. -/
theorem C5_buffer_handle_amended {W : Type} (c : Collaborators W) (w : World W)
    (inst_ext_if : Nat) (dev_ext_if : GravityDeviceExtIf) (total_reserved_size_bytes : Nat)
    (b : GravityUniformBuffer) (ops : List Op)
    (h : (ctor c w inst_ext_if dev_ext_if total_reserved_size_bytes).1 = some b)
    (hdriver :
      (c.vkCreateBuffer w.ext dev_ext_if.m_vk_device
          { sType := VK_STRUCTURE_TYPE_BUFFER_CREATE_INFO
            pNext := nullptr
            flags := 0
            usage := VK_BUFFER_USAGE_UNIFORM_BUFFER_BIT
            sharingMode := VK_SHARING_MODE_EXCLUSIVE
            size := total_reserved_size_bytes }).1 = VK_SUCCESS →
      (c.vkCreateBuffer w.ext dev_ext_if.m_vk_device
          { sType := VK_STRUCTURE_TYPE_BUFFER_CREATE_INFO
            pNext := nullptr
            flags := 0
            usage := VK_BUFFER_USAGE_UNIFORM_BUFFER_BIT
            sharingMode := VK_SHARING_MODE_EXCLUSIVE
            size := total_reserved_size_bytes }).2.1 ≠ VK_NULL_HANDLE) :
    b.m_vk_buffer ≠ VK_NULL_HANDLE ∧
    b.m_vk_buffer
      = (c.vkCreateBuffer w.ext dev_ext_if.m_vk_device
          { sType := VK_STRUCTURE_TYPE_BUFFER_CREATE_INFO
            pNext := nullptr
            flags := 0
            usage := VK_BUFFER_USAGE_UNIFORM_BUFFER_BIT
            sharingMode := VK_SHARING_MODE_EXCLUSIVE
            size := total_reserved_size_bytes }).2.1 ∧
    (Op.Unload ∉ ops →
      (run c ops (b, (ctor c w inst_ext_if dev_ext_if total_reserved_size_bytes).2)).1.m_vk_buffer
        = b.m_vk_buffer ∧
      (run c ops (b, (ctor c w inst_ext_if dev_ext_if total_reserved_size_bytes).2)).1.m_vk_buffer
        ≠ VK_NULL_HANDLE) ∧
    (Op.Unload ∈ ops →
      (run c ops (b, (ctor c w inst_ext_if dev_ext_if total_reserved_size_bytes).2)).1.m_vk_buffer
        = VK_NULL_HANDLE) := by
  have hc := ctor_some c w inst_ext_if dev_ext_if total_reserved_size_bytes b h
  have hnn : b.m_vk_buffer ≠ VK_NULL_HANDLE := by
    rw [hc.1]
    exact hdriver hc.2.2.2.2.2
  refine ⟨hnn, hc.1, fun hno => ?_, fun hyes => run_with_Unload c ops _ hyes⟩
  have hk := run_keeps_buffer c ops
    (b, (ctor c w inst_ext_if dev_ext_if total_reserved_size_bytes).2) hno
  refine ⟨hk, ?_⟩
  rw [hk]
  exact hnn

/-- C5 amended, on the sample buffer: Load, Bind, Map, GetDescriptorInfo and
Unmap keep the non-null handle 7; the same calls followed by Unload and Load
end with the null handle. -/
theorem C5_buffer_handle_amended_witness :
    (sampleBuffer 0).m_vk_buffer ≠ VK_NULL_HANDLE ∧
    ((run (sampleCollaborators true true)
      [Op.Load 256, Op.Bind, Op.Map 2 256, Op.GetDescriptorInfo 2, Op.Unmap]
      (sampleBuffer 0,
        (ctor (sampleCollaborators true true) emptyWorld 0 { m_vk_device := 1 } 65536).2)).1.m_vk_buffer
      = (sampleBuffer 0).m_vk_buffer ∧
    (run (sampleCollaborators true true)
      [Op.Load 256, Op.Bind, Op.Map 2 256, Op.GetDescriptorInfo 2, Op.Unmap]
      (sampleBuffer 0,
        (ctor (sampleCollaborators true true) emptyWorld 0 { m_vk_device := 1 } 65536).2)).1.m_vk_buffer
      ≠ VK_NULL_HANDLE) ∧
    (run (sampleCollaborators true true)
      [Op.Load 256, Op.Bind, Op.Map 2 256, Op.Unmap, Op.Unload, Op.Load 256]
      (sampleBuffer 0,
        (ctor (sampleCollaborators true true) emptyWorld 0 { m_vk_device := 1 } 65536).2)).1.m_vk_buffer
      = VK_NULL_HANDLE :=
  ⟨(C5_buffer_handle_amended (sampleCollaborators true true) emptyWorld 0 { m_vk_device := 1 }
      65536 (sampleBuffer 0) [] (by decide) (by decide)).1,
    (C5_buffer_handle_amended (sampleCollaborators true true) emptyWorld 0 { m_vk_device := 1 }
      65536 (sampleBuffer 0)
      [Op.Load 256, Op.Bind, Op.Map 2 256, Op.GetDescriptorInfo 2, Op.Unmap]
      (by decide) (by decide)).2.2.1 (by decide),
    (C5_buffer_handle_amended (sampleCollaborators true true) emptyWorld 0 { m_vk_device := 1 }
      65536 (sampleBuffer 0)
      [Op.Load 256, Op.Bind, Op.Map 2 256, Op.Unmap, Op.Unload, Op.Load 256]
      (by decide) (by decide)).2.2.2 (by decide)⟩

/-! ## C1: GetDescriptorInfo -/

/-- Every method but Load leaves the stride as it is. -/
theorem step_keeps_stride {W : Type} (c : Collaborators W) (o : Op)
    (sw : GravityUniformBuffer × World W) (h : ∀ d, o ≠ Op.Load d) :
    (step c o sw).1.m_data_stride_bytes = sw.1.m_data_stride_bytes := by
  cases o with
  | Load d => exact absurd rfl (h d)
  | Bind =>
    simp only [step, GravityUniformBuffer.Bind]
    split <;> rfl
  | Map i n =>
    simp only [step, Map]
    split <;> rfl
  | Unmap => rfl
  | GetDescriptorInfo i => rfl
  | Unload => simp only [step, Unload_state]

/-- A sequence without Load leaves the stride as it is. -/
theorem run_keeps_stride {W : Type} (c : Collaborators W) (ops : List Op) :
    ∀ sw : GravityUniformBuffer × World W, (∀ d, Op.Load d ∉ ops) →
      (run c ops sw).1.m_data_stride_bytes = sw.1.m_data_stride_bytes := by
  induction ops with
  | nil => intro sw _; rfl
  | cons o rest ih =>
    intro sw h
    have ho : ∀ d, o ≠ Op.Load d := fun d e => h d (by simp [e])
    have hr : ∀ d, Op.Load d ∉ rest := fun d e => h d (by simp [e])
    have : run c (o :: rest) sw = run c rest (step c o sw) := rfl
    rw [this, ih (step c o sw) hr, step_keeps_stride c o sw ho]

/-- C1, as stated, fails twice.  With stride 65536 and index 65536 (both
32-bit values) the reported offset is 0, not the product 4294967296.  And
with an Unload, and no Load, between two calls with index 2 the results
differ: the buffer field is 7 in the first and 0 in the second. -/
theorem C1_offset_wraps_and_Unload_changes_the_result :
    (65536 : Nat) < UINT32_SIZE ∧
    (sampleBuffer 65536).m_data_stride_bytes = 65536 ∧
    (sampleBuffer 65536).m_data_stride_bytes < UINT32_SIZE ∧
    (GetDescriptorInfo (sampleBuffer 65536) 65536).offset = 0 ∧
    ¬ (GetDescriptorInfo (sampleBuffer 65536) 65536).offset
        = 65536 * (sampleBuffer 65536).m_data_stride_bytes ∧
    GetDescriptorInfo (sampleBuffer 256) 2 = { buffer := 7, offset := 512, range := 256 } ∧
    GetDescriptorInfo
        (run (sampleCollaborators true true) [Op.Unload] (sampleBuffer 256, emptyWorld)).1 2
      = { buffer := 0, offset := 512, range := 256 } ∧
    ¬ GetDescriptorInfo
        (run (sampleCollaborators true true) [Op.Unload] (sampleBuffer 256, emptyWorld)).1 2
      = GetDescriptorInfo (sampleBuffer 256) 2 := by
  decide

/-- C1, amended: GetDescriptorInfo returns the current buffer handle, the
stride as range, and as offset the product index * stride reduced modulo
2^32, which is the product itself whenever the product is below 2^32; it
writes no member of the object and makes no outside call; two calls with the
same index return the same offset and range when no Load comes between them,
whatever other methods do, and the same result, buffer included, when
neither Load nor Unload comes between them. -/
theorem C1_GetDescriptorInfo_amended {W : Type} (c : Collaborators W)
    (self : GravityUniformBuffer) (w : World W) (index : Nat) (ops : List Op) :
    (GetDescriptorInfo self index).buffer = self.m_vk_buffer ∧
    (GetDescriptorInfo self index).range = self.m_data_stride_bytes ∧
    (GetDescriptorInfo self index).offset
      = (index * self.m_data_stride_bytes) % UINT32_SIZE ∧
    (index * self.m_data_stride_bytes < UINT32_SIZE →
      (GetDescriptorInfo self index).offset = index * self.m_data_stride_bytes) ∧
    step c (Op.GetDescriptorInfo index) (self, w) = (self, w) ∧
    ((∀ d, Op.Load d ∉ ops) →
      (GetDescriptorInfo (run c ops (self, w)).1 index).offset
        = (GetDescriptorInfo self index).offset ∧
      (GetDescriptorInfo (run c ops (self, w)).1 index).range
        = (GetDescriptorInfo self index).range) ∧
    ((∀ d, Op.Load d ∉ ops) → Op.Unload ∉ ops →
      GetDescriptorInfo (run c ops (self, w)).1 index = GetDescriptorInfo self index) := by
  refine ⟨rfl, rfl, rfl, fun h => ?_, rfl, fun hl => ?_, fun hl hu => ?_⟩
  · rw [descriptor_offset_eq, Nat.mod_eq_of_lt h]
  · have hs := run_keeps_stride c ops (self, w) hl
    simp only [GetDescriptorInfo, hs, and_self]
  · have hs := run_keeps_stride c ops (self, w) hl
    have hb := run_keeps_buffer c ops (self, w) hu
    simp only [GetDescriptorInfo, hs, hb]

/-- C1 amended, at stride 256 and index 2: offset 512, range 256, also after
Bind, Map, GetDescriptorInfo and Unmap; after an Unload offset and range are
still the same. -/
theorem C1_GetDescriptorInfo_amended_witness :
    GetDescriptorInfo (loadedBuffer 256) 2 = { buffer := 7, offset := 512, range := 256 } ∧
    (GetDescriptorInfo (loadedBuffer 256) 2).offset
      = 2 * (loadedBuffer 256).m_data_stride_bytes ∧
    GetDescriptorInfo
        (run (sampleCollaborators true true)
          [Op.Bind, Op.Map 2 256, Op.GetDescriptorInfo 2, Op.Unmap]
          (loadedBuffer 256, emptyWorld)).1 2
      = GetDescriptorInfo (loadedBuffer 256) 2 ∧
    ((GetDescriptorInfo
        (run (sampleCollaborators true true) [Op.Map 2 256, Op.Unmap, Op.Unload]
          (loadedBuffer 256, emptyWorld)).1 2).offset
      = (GetDescriptorInfo (loadedBuffer 256) 2).offset ∧
    (GetDescriptorInfo
        (run (sampleCollaborators true true) [Op.Map 2 256, Op.Unmap, Op.Unload]
          (loadedBuffer 256, emptyWorld)).1 2).range
      = (GetDescriptorInfo (loadedBuffer 256) 2).range) :=
  ⟨by decide,
    (C1_GetDescriptorInfo_amended (sampleCollaborators true true) (loadedBuffer 256)
      emptyWorld 2 []).2.2.2.1 (by decide),
    (C1_GetDescriptorInfo_amended (sampleCollaborators true true) (loadedBuffer 256)
      emptyWorld 2 [Op.Bind, Op.Map 2 256, Op.GetDescriptorInfo 2, Op.Unmap]).2.2.2.2.2.2
      (by intro d; simp) (by decide),
    (C1_GetDescriptorInfo_amended (sampleCollaborators true true) (loadedBuffer 256)
      emptyWorld 2 [Op.Map 2 256, Op.Unmap, Op.Unload]).2.2.2.2.2.1
      (by intro d; simp)⟩

/-! ## C8: Unload, then Load again -/

/-- The log after Bind starts with one vkBindBufferMemory call on the buffer
handle and the memory handle of the object, at offset 0. -/
theorem Bind_call {W : Type} (c : Collaborators W) (self : GravityUniformBuffer)
    (w : World W) :
    (GravityUniformBuffer.Bind c self w).2.2.calls[w.calls.length]?
      = some (Call.vkBindBufferMemory self.m_dev_ext_if.m_vk_device self.m_vk_buffer
          self.m_memory.vk_device_memory 0) := by
  simp only [GravityUniformBuffer.Bind]
  split
  · simp only [World.record, List.append_assoc]
    rw [List.getElem?_append_right (le_refl _)]
    simp
  · simp only []
    rw [List.getElem?_append_right (le_refl _)]
    simp

/-- C8, as stated, fails: with the sample driver, Load succeeds, Unload and a
second successful Load follow, and the Bind after them passes the null buffer
handle to vkBindBufferMemory, not handle 7. -/
theorem C8_Bind_after_reload_passes_null :
    (Load (sampleCollaborators true true) (sampleBuffer 0) emptyWorld 256).1 = true ∧
    (Load (sampleCollaborators true true) (sampleBuffer 0) emptyWorld 256).2.1
      = loadedBuffer 256 ∧
    (run (sampleCollaborators true true) [Op.Unload, Op.Load 256]
      (loadedBuffer 256, emptyWorld)).1.m_memory.vk_device_memory = 5 ∧
    (run (sampleCollaborators true true) [Op.Unload, Op.Load 256, Op.Bind]
      (loadedBuffer 256, emptyWorld)).2.calls.getLast?
      = some (Call.vkBindBufferMemory 1 VK_NULL_HANDLE 5 0) ∧
    ¬ (run (sampleCollaborators true true) [Op.Unload, Op.Load 256]
      (loadedBuffer 256, emptyWorld)).1.m_vk_buffer ≠ VK_NULL_HANDLE := by
  decide

/-- C8, amended: after a successful Load, Unload followed by Load with a
succeeding AllocateMemory returns true; the memory handle is bound after the
first Load, VK_NULL_HANDLE after Unload and bound again after the second Load
(a succeeding AllocateMemory being one that stores a bound handle); the buffer
handle that a following Bind passes to vkBindBufferMemory is
VK_NULL_HANDLE. -/
theorem C8_round_trip_amended {W : Type} (c : Collaborators W) (self : GravityUniformBuffer)
    (w : World W) (d0 d : Nat)
    (h0 : (c.AllocateMemory w.ext self.m_memory
      (VK_MEMORY_PROPERTY_DEVICE_LOCAL_BIT ||| VK_MEMORY_PROPERTY_HOST_VISIBLE_BIT)).1 = true)
    (b0 : (c.AllocateMemory w.ext self.m_memory
      (VK_MEMORY_PROPERTY_DEVICE_LOCAL_BIT ||| VK_MEMORY_PROPERTY_HOST_VISIBLE_BIT)).2.1.vk_device_memory
        ≠ VK_NULL_HANDLE)
    (h1 : (c.AllocateMemory
      (Unload c (Load c self w d0).2.1 (Load c self w d0).2.2).2.2.ext
      (Unload c (Load c self w d0).2.1 (Load c self w d0).2.2).2.1.m_memory
      (VK_MEMORY_PROPERTY_DEVICE_LOCAL_BIT ||| VK_MEMORY_PROPERTY_HOST_VISIBLE_BIT)).1 = true)
    (b1 : (c.AllocateMemory
      (Unload c (Load c self w d0).2.1 (Load c self w d0).2.2).2.2.ext
      (Unload c (Load c self w d0).2.1 (Load c self w d0).2.2).2.1.m_memory
      (VK_MEMORY_PROPERTY_DEVICE_LOCAL_BIT ||| VK_MEMORY_PROPERTY_HOST_VISIBLE_BIT)).2.1.vk_device_memory
        ≠ VK_NULL_HANDLE) :
    let loaded := Load c self w d0
    let unloaded := Unload c loaded.2.1 loaded.2.2
    let reloaded := Load c unloaded.2.1 unloaded.2.2 d
    let bound := GravityUniformBuffer.Bind c reloaded.2.1 reloaded.2.2
    loaded.1 = true ∧
    loaded.2.1.m_memory.vk_device_memory ≠ VK_NULL_HANDLE ∧
    unloaded.1 = true ∧
    unloaded.2.1.m_memory.vk_device_memory = VK_NULL_HANDLE ∧
    reloaded.1 = true ∧
    reloaded.2.1.m_memory.vk_device_memory ≠ VK_NULL_HANDLE ∧
    reloaded.2.1.m_data_stride_bytes = d ∧
    reloaded.2.1.m_vk_buffer = VK_NULL_HANDLE ∧
    bound.2.2.calls[reloaded.2.2.calls.length]?
      = some (Call.vkBindBufferMemory self.m_dev_ext_if.m_vk_device VK_NULL_HANDLE
          reloaded.2.1.m_memory.vk_device_memory 0) := by
  intro loaded unloaded reloaded bound
  have hl : loaded.1 = true := by
    simp only [loaded]
    rw [Load_result]
    exact h0
  have hlm : loaded.2.1.m_memory.vk_device_memory ≠ VK_NULL_HANDLE := by
    simp only [loaded]
    rw [Load_state]
    exact b0
  have hum : unloaded.2.1.m_memory.vk_device_memory = VK_NULL_HANDLE :=
    (Unload_resets_handles c loaded.2.1 loaded.2.2).1
  have hub : unloaded.2.1.m_vk_buffer = VK_NULL_HANDLE :=
    (Unload_resets_handles c loaded.2.1 loaded.2.2).2
  have hr : reloaded.1 = true := by
    simp only [reloaded]
    rw [Load_result]
    exact h1
  have hrm : reloaded.2.1.m_memory.vk_device_memory ≠ VK_NULL_HANDLE := by
    simp only [reloaded]
    rw [Load_state]
    exact b1
  have hrb : reloaded.2.1.m_vk_buffer = VK_NULL_HANDLE := by
    simp only [reloaded]
    rw [Load_state]
    exact hub
  have hdev : reloaded.2.1.m_dev_ext_if = self.m_dev_ext_if := by
    simp only [reloaded, unloaded, loaded]
    rw [Load_state, Unload_state, Load_state]
  refine ⟨hl, hlm, rfl, hum, hr, hrm, ?_, hrb, ?_⟩
  · simp only [reloaded]
    rw [Load_state]
  · simp only [bound]
    rw [Bind_call, hrb, hdev]

/-- C8 amended, on the sample buffer with the sample driver. -/
theorem C8_round_trip_amended_witness :
    (Load (sampleCollaborators true true)
      (Unload (sampleCollaborators true true)
        (Load (sampleCollaborators true true) (sampleBuffer 0) emptyWorld 256).2.1
        (Load (sampleCollaborators true true) (sampleBuffer 0) emptyWorld 256).2.2).2.1
      (Unload (sampleCollaborators true true)
        (Load (sampleCollaborators true true) (sampleBuffer 0) emptyWorld 256).2.1
        (Load (sampleCollaborators true true) (sampleBuffer 0) emptyWorld 256).2.2).2.2
      64).2.1.m_vk_buffer = VK_NULL_HANDLE :=
  (C8_round_trip_amended (sampleCollaborators true true) (sampleBuffer 0) emptyWorld 256 64
    (by decide) (by decide) (by decide) (by decide)).2.2.2.2.2.2.2.1

/-! ## C9: Unmap and the cached pointer -/

/-- C9, as stated, fails: Unmap hands the descriptor to the manager by
reference and keeps what the manager leaves in it, so with a manager whose
UnmapMemory writes to the descriptor the object after a second Unmap is not
the object after the first (the size in the descriptor is 65537, then
65538), although the cached pointer is null after both. -/
theorem C9_second_Unmap_changes_the_descriptor :
    (Unmap rewritingCollaborators (loadedBuffer 256) emptyWorld).1.m_cpu_addr = nullptr ∧
    (Unmap rewritingCollaborators (loadedBuffer 256) emptyWorld).1.m_memory.vk_mem_reqs.size
      = 65537 ∧
    (Unmap rewritingCollaborators
      (Unmap rewritingCollaborators (loadedBuffer 256) emptyWorld).1
      (Unmap rewritingCollaborators (loadedBuffer 256) emptyWorld).2).1.m_cpu_addr = nullptr ∧
    (Unmap rewritingCollaborators
      (Unmap rewritingCollaborators (loadedBuffer 256) emptyWorld).1
      (Unmap rewritingCollaborators (loadedBuffer 256) emptyWorld).2).1.m_memory.vk_mem_reqs.size
      = 65538 ∧
    ¬ (Unmap rewritingCollaborators
      (Unmap rewritingCollaborators (loadedBuffer 256) emptyWorld).1
      (Unmap rewritingCollaborators (loadedBuffer 256) emptyWorld).2).1
      = (Unmap rewritingCollaborators (loadedBuffer 256) emptyWorld).1 := by
  decide

/-- C9, amended: the constructor leaves the cached pointer null; Unmap makes
one UnmapMemory call on the descriptor of the object and leaves the cached
pointer null; so Map followed by Unmap ends with a null cached pointer whether
the Map succeeded or not; a second Unmap leaves every member other than the
descriptor as the first left it, the descriptor being what the manager leaves
in it, and leaves the whole object as the first left it when the manager
leaves the descriptor as it is. -/
theorem C9_Unmap_amended {W : Type} (c : Collaborators W) (self : GravityUniformBuffer) (w : World W)
    (index map_mem_size : Nat) :
    let once := Unmap c self w
    let twice := Unmap c once.1 once.2
    let mapped := Map c self w index map_mem_size
    let unmapped := Unmap c mapped.2.1 mapped.2.2
    (∀ (w0 : World W) (inst_ext_if : Nat) (dev_ext_if : GravityDeviceExtIf) (size : Nat)
        (b : GravityUniformBuffer),
      (ctor c w0 inst_ext_if dev_ext_if size).1 = some b → b.m_cpu_addr = nullptr) ∧
    once.2.calls = w.calls ++ [Call.UnmapMemory self.m_memory] ∧
    once.1.m_cpu_addr = nullptr ∧
    unmapped.1.m_cpu_addr = nullptr ∧
    unmapped.2.calls = mapped.2.2.calls ++ [Call.UnmapMemory mapped.2.1.m_memory] ∧
    twice.1.m_cpu_addr = nullptr ∧
    twice.1 = { once.1 with m_memory := (c.UnmapMemory once.2.ext once.1.m_memory).1 } ∧
    ((c.UnmapMemory once.2.ext once.1.m_memory).1 = once.1.m_memory → twice.1 = once.1) := by
  intro once twice mapped unmapped
  refine ⟨fun w0 i dv sz b h => (ctor_some c w0 i dv sz b h).2.1, rfl, rfl, rfl, rfl, rfl, rfl,
    fun h => ?_⟩
  have : twice.1 = { once.1 with m_memory := (c.UnmapMemory once.2.ext once.1.m_memory).1 } := rfl
  rw [this, h]

/-- C9 amended, with the sample driver: after a failed Map as after a successful one
the Unmap leaves the cached pointer null, and a second Unmap leaves the object
as the first left it. -/
theorem C9_Unmap_amended_witness :
    (ctor (sampleCollaborators true true) emptyWorld 0 { m_vk_device := 1 } 65536).1
      = some (sampleBuffer 0) ∧
    (sampleBuffer 0).m_cpu_addr = nullptr ∧
    (Map (sampleCollaborators true true) (loadedBuffer 256) emptyWorld 2 256).2.1.m_cpu_addr
      = 4608 ∧
    (Unmap (sampleCollaborators true true)
      (Map (sampleCollaborators true true) (loadedBuffer 256) emptyWorld 2 256).2.1
      (Map (sampleCollaborators true true) (loadedBuffer 256) emptyWorld 2 256).2.2).1.m_cpu_addr
      = nullptr ∧
    (Unmap (sampleCollaborators true false)
      (Map (sampleCollaborators true false) (loadedBuffer 256) emptyWorld 2 256).2.1
      (Map (sampleCollaborators true false) (loadedBuffer 256) emptyWorld 2 256).2.2).1.m_cpu_addr
      = nullptr ∧
    (Unmap (sampleCollaborators true true)
      (Unmap (sampleCollaborators true true) (loadedBuffer 256) emptyWorld).1
      (Unmap (sampleCollaborators true true) (loadedBuffer 256) emptyWorld).2).1
      = (Unmap (sampleCollaborators true true) (loadedBuffer 256) emptyWorld).1 :=
  ⟨by decide,
    (C9_Unmap_amended (sampleCollaborators true true) (loadedBuffer 256) emptyWorld 2 256).1
      emptyWorld 0 { m_vk_device := 1 } 65536 (sampleBuffer 0) (by decide),
    by decide,
    (C9_Unmap_amended (sampleCollaborators true true) (loadedBuffer 256) emptyWorld 2 256).2.2.2.1,
    (C9_Unmap_amended (sampleCollaborators true false) (loadedBuffer 256) emptyWorld 2 256).2.2.2.1,
    (C9_Unmap_amended (sampleCollaborators true true) (loadedBuffer 256) emptyWorld 2 256).2.2.2.2.2.2.2
      (by decide)⟩

end LunarGravity
